import Mathlib

/-!
Shallow embedding of the MCP-Expokossodo tool gateway (gfxjef/mcp_expokossodo2025)
and proofs about the claims of its specification.

The embedding follows the Python source:
* app/auth.py            : roles, permission table, permission check, rate limiter
* app/db/queries.py      : attendance upsert, registrant queries
* app/services/*.py      : service layer (asistencia, inscritos, estadisticas)
* app/api/tools.py       : endpoint glue (error mapping)
* app/cache/redis_client.py : cache key building, TTL table, cache accessors

Machine integers of the source are modelled as Nat / Int (no overflow is
relevant here); timestamps (Python floats from time.time and SQL TIMESTAMP
values) are modelled as Int; the float KPI arithmetic of estadisticas.py is
modelled over Q; fallible paths return Option / Except.
-/

set_option maxRecDepth 40000

namespace Expo

/-! ## app/auth.py : roles and the static permission table -/

/-- Roles of class UserRole in app/auth.py. LECTOR is the spec Reader,
STAFF_PUERTA the spec DoorStaff, COORDINADOR the spec Coordinator. -/
inductive UserRole where
  | LECTOR
  | STAFF_PUERTA
  | COORDINADOR
deriving DecidableEq, Repr

/-- Static role to tool-name table ROLE_PERMISSIONS of app/auth.py (lines 34-62),
with the lists exactly as written in the source. -/
def ROLE_PERMISSIONS : UserRole → List String
  | .LECTOR =>
      ["getEventos", "getInscritos", "getAforo", "getEstadisticas",
       "buscarRegistro", "mapaSalaEvento"]
  | .STAFF_PUERTA =>
      ["getEventos", "getInscritos", "getAforo", "getEstadisticas",
       "buscarRegistro", "mapaSalaEvento", "confirmarAsistencia"]
  | .COORDINADOR =>
      ["getEventos", "getInscritos", "getAforo", "getEstadisticas",
       "buscarRegistro", "mapaSalaEvento", "confirmarAsistencia",
       "estadisticasDetalladas"]

/-- MCPUser of app/auth.py: id, display name, role and the permission list
that verify_token copies out of ROLE_PERMISSIONS. -/
structure MCPUser where
  user_id : String
  username : String
  role : UserRole
  permissions : List String
deriving DecidableEq, Repr

/-- Construction of the user done by verify_token (app/auth.py lines 93-101):
the permission list is recomputed from the static table from the role claim. -/
def mkUser (user_id username : String) (role : UserRole) : MCPUser :=
  { user_id := user_id, username := username, role := role,
    permissions := ROLE_PERMISSIONS role }

/-- Permission check of require_permission (app/auth.py lines 148-164):
the call is allowed iff the tool name is in the permission list of the user. -/
def isAllowed (user : MCPUser) (tool : String) : Bool :=
  decide (tool ∈ user.permissions)

/-- Outcome of the permission_checker closure in require_permission: the user
on success, or an HTTP 403 carrying the tool name and the role on denial. -/
inductive PermissionOutcome where
  | ok (user : MCPUser)
  | permissionDenied (tool : String) (role : UserRole)
deriving DecidableEq, Repr

/-- Body of permission_checker (app/auth.py lines 150-163). -/
def require_permission (tool : String) (user : MCPUser) : PermissionOutcome :=
  if tool ∈ user.permissions then .ok user
  else .permissionDenied tool user.role

/-! ## app/auth.py : RateLimiter -/

/-- State kept per key by class RateLimiter (self.requests[key]): the list of
admitted request timestamps. Python time.time floats are modelled as Int. -/
abbrev ReqTimes := List Int

/-- RateLimiter.is_allowed (app/auth.py lines 195-207): prune entries with
now - t >= window out of the list, reject if at least limit survive,
otherwise append now and allow. Returns the decision and the new list. -/
def is_allowed (reqs : ReqTimes) (limit : Nat) (window : Int) (now : Int) :
    Bool × ReqTimes :=
  let pruned := reqs.filter (fun t => now - t < window)
  if limit ≤ pruned.length then (false, pruned)
  else (true, pruned ++ [now])

/-- Rate limiter state: the defaultdict self.requests, as an association list;
a missing key reads as the empty list. -/
abbrev RLState := List (String × ReqTimes)

/-- Lookup in the defaultdict: missing keys give []. -/
def rlGet (st : RLState) (key : String) : ReqTimes :=
  match st.find? (fun kv => kv.1 = key) with
  | some kv => kv.2
  | none => []

/-- Store back the per-key list (defaultdict assignment). -/
def rlSet (st : RLState) (key : String) (reqs : ReqTimes) : RLState :=
  match st.find? (fun kv => kv.1 = key) with
  | some _ => st.map (fun kv => if kv.1 = key then (key, reqs) else kv)
  | none => st ++ [(key, reqs)]

/-- The single write tool of check_rate_limit (app/auth.py line 219). -/
def write_tools : List String := ["confirmarAsistencia"]

/-- check_rate_limit (app/auth.py lines 214-244): pick the write or read limit
by tool class, build key user_id:tool_name, and consult is_allowed with
window 60; on rejection raise HTTP 429 (modelled as false) recording nothing
beyond what is_allowed kept. Returns the decision and the new limiter state. -/
def check_rate_limit (st : RLState) (user : MCPUser) (tool : String)
    (readLimit writeLimit : Nat) (now : Int) : Bool × RLState :=
  let limit := if write_tools.contains tool then writeLimit else readLimit
  let key := user.user_id ++ ":" ++ tool
  let (ok, reqs) := is_allowed (rlGet st key) limit 60 now
  (ok, rlSet st key reqs)

/-- Repeated admission attempts for one key: fold is_allowed over a list of
call times, collecting the decisions. -/
def admitSeq (reqs : ReqTimes) (limit : Nat) (window : Int) :
    List Int → List Bool × ReqTimes
  | [] => ([], reqs)
  | t :: ts =>
      let (d, reqs1) := is_allowed reqs limit window t
      let (ds, reqs2) := admitSeq reqs1 limit window ts
      (d :: ds, reqs2)

/-- Admission control as the claim words it: prune the timestamps strictly
older than now - 60 (so a timestamp of age exactly 60 is kept), then reject
when at least limit remain, else record now. Stated from the claim text for
comparison with is_allowed, which the source defines with a strict age bound
(now - t < window), pruning the age-exactly-60 timestamp as well. -/
def claimAdmit (reqs : ReqTimes) (limit : Nat) (now : Int) : Bool × ReqTimes :=
  let kept := reqs.filter (fun t => now - 60 ≤ t)
  if limit ≤ kept.length then (false, kept)
  else (true, kept ++ [now])

theorem filter_replicate_self {p : Int → Bool} {now : Int} (h : p now) (j : Nat) :
    (List.replicate j now).filter p = List.replicate j now := by
  rw [List.filter_eq_self]
  intro a ha
  rw [List.eq_of_mem_replicate ha]
  exact h

theorem admitSeq_replicate (L : Nat) (now : Int) :
    ∀ k j, j + k ≤ L →
      admitSeq (List.replicate j now) L 60 (List.replicate k now) =
        (List.replicate k true, List.replicate (j + k) now) := by
  intro k
  induction k with
  | zero => intro j _; simp [admitSeq]
  | succ k ih =>
      intro j hjk
      have hfilter : (List.replicate j now).filter (fun t => now - t < 60) =
          List.replicate j now :=
        filter_replicate_self (by simp) j
      have hlt : ¬ L ≤ (List.replicate j now).length := by
        simp only [List.length_replicate]
        omega
      have hrep : List.replicate j now ++ [now] = now :: List.replicate j now := by
        rw [← List.replicate_succ', List.replicate_succ]
      have hstep : is_allowed (List.replicate j now) L 60 now =
          (true, now :: List.replicate j now) := by
        simp only [is_allowed, hfilter, hlt, if_false, hrep]
      have hih := ih (j + 1) (by omega)
      rw [List.replicate_succ] at hih
      have harith : j + 1 + k = j + (k + 1) := by omega
      rw [harith] at hih
      simp only [List.replicate_succ, admitSeq, hstep, hih]

/-- Claim C4 (amended): each admission check keeps exactly the timestamps of
age strictly below the 60-unit window (pruning those with now - t >= 60,
including age exactly 60), rejects without recording when at least L survive
and otherwise records now; consequently, for a fresh (principal, tool) key,
L calls within one window are all admitted, an (L+1)-th call in the same
window is rejected leaving the recorded timestamps unchanged, and a call one
full window later is admitted again. check_rate_limit consults is_allowed
with window 60 on the key built from the principal id and the tool name. -/
theorem rate_limiter_sliding_window (L : Nat) (now : Int) (hL : 0 < L) :
    (∀ reqs t,
        is_allowed reqs L 60 t =
          if L ≤ (reqs.filter (fun x => t - x < 60)).length then
            (false, reqs.filter (fun x => t - x < 60))
          else (true, reqs.filter (fun x => t - x < 60) ++ [t])) ∧
    admitSeq [] L 60 (List.replicate L now) =
      (List.replicate L true, List.replicate L now) ∧
    is_allowed (List.replicate L now) L 60 now = (false, List.replicate L now) ∧
    is_allowed (List.replicate L now) L 60 (now + 60) = (true, [now + 60]) ∧
    (∀ st user tool readL writeL t,
        (check_rate_limit st user tool readL writeL t).fst =
          (is_allowed (rlGet st (user.user_id ++ ":" ++ tool))
            (if write_tools.contains tool then writeL else readL) 60 t).fst) := by
  refine ⟨fun reqs t => rfl, ?_, ?_, ?_, fun st user tool readL writeL t => rfl⟩
  · have h := admitSeq_replicate L now L 0 (by omega)
    simpa using h
  · have hfilter : (List.replicate L now).filter (fun t => now - t < 60) =
        List.replicate L now :=
      filter_replicate_self (by simp) L
    simp only [is_allowed, hfilter, List.length_replicate, le_refl, if_true]
  · have hfilter : (List.replicate L now).filter (fun t => now + 60 - t < 60) =
        [] := by
      rw [List.filter_eq_nil_iff]
      intro a ha
      rw [List.eq_of_mem_replicate ha]
      simp
    have hlt : ¬ L ≤ ([] : ReqTimes).length := by
      simp only [List.length_nil]
      omega
    simp only [is_allowed, hfilter, hlt, if_false, List.nil_append]

/-- Witness for rate_limiter_sliding_window at the spec example values
L = 10, now = 0. -/
theorem rate_limiter_sliding_window_witness :
    0 < 10 ∧
    admitSeq [] 10 60 (List.replicate 10 (0 : Int)) =
      (List.replicate 10 true, List.replicate 10 (0 : Int)) ∧
    is_allowed (List.replicate 10 (0 : Int)) 10 60 0 =
      (false, List.replicate 10 (0 : Int)) ∧
    is_allowed (List.replicate 10 (0 : Int)) 10 60 60 = (true, [60]) :=
  ⟨by decide,
    (rate_limiter_sliding_window 10 0 (by decide)).2.1,
    (rate_limiter_sliding_window 10 0 (by decide)).2.2.1,
    by simpa using (rate_limiter_sliding_window 10 0 (by decide)).2.2.2.1⟩

/-- Counterexample to claim C4 as stated: the claim prunes only timestamps
strictly older than now - 60, so at now = 60 with one timestamp recorded at 0
and limit 1 it keeps the timestamp and rejects; the source prunes on
now - t < window, so the age-exactly-60 timestamp is dropped and the call is
admitted with only the new timestamp recorded. -/
theorem rate_limiter_prune_boundary_counterexample :
    is_allowed [(0 : Int)] 1 60 60 = (true, [60]) ∧
    claimAdmit [(0 : Int)] 1 60 = (false, [0]) := by
  constructor <;> rfl

/-- Claim C8: the permission check allows a (role, tool) pair exactly when the
tool is in the role's static list; the three role lists form a strict chain
(the DoorStaff list adds confirmarAsistencia over the Reader list and the
Coordinator list adds estadisticasDetalladas over the DoorStaff list); and a
Reader principal invoking confirmarAsistencia is denied with PermissionDenied
carrying the tool and the role. -/
theorem rbac_permission_table :
    (∀ (uid un t : String) (r : UserRole),
        require_permission t (mkUser uid un r) = .ok (mkUser uid un r) ↔
          t ∈ ROLE_PERMISSIONS r) ∧
    (∀ (u : MCPUser) (t : String), isAllowed u t = true ↔ t ∈ u.permissions) ∧
    (∀ x ∈ ROLE_PERMISSIONS .LECTOR, x ∈ ROLE_PERMISSIONS .STAFF_PUERTA) ∧
    "confirmarAsistencia" ∈ ROLE_PERMISSIONS .STAFF_PUERTA ∧
    "confirmarAsistencia" ∉ ROLE_PERMISSIONS .LECTOR ∧
    (∀ x ∈ ROLE_PERMISSIONS .STAFF_PUERTA, x ∈ ROLE_PERMISSIONS .COORDINADOR) ∧
    "estadisticasDetalladas" ∈ ROLE_PERMISSIONS .COORDINADOR ∧
    "estadisticasDetalladas" ∉ ROLE_PERMISSIONS .STAFF_PUERTA ∧
    (∀ uid un : String,
        require_permission "confirmarAsistencia" (mkUser uid un .LECTOR) =
          .permissionDenied "confirmarAsistencia" .LECTOR) := by
  refine ⟨?_, ?_, by decide, by decide, by decide, by decide, by decide,
    by decide, ?_⟩
  · intro uid un t r
    simp only [require_permission, mkUser]
    by_cases h : t ∈ ROLE_PERMISSIONS r
    · simp [h]
    · simp [h]
  · intro u t
    simp [isAllowed]
  · intro uid un
    have h : "confirmarAsistencia" ∉ ROLE_PERMISSIONS .LECTOR := by decide
    simp only [require_permission, mkUser, h, if_false]

/-! ## app/db/models.py : the table rows the claims need -/

/-- Calendar date (SQL Date column), year-month-day. -/
structure Fecha where
  y : Nat
  m : Nat
  d : Nat
deriving DecidableEq, Repr

/-- Numeric key giving the calendar order of dates (valid dates compare by
this key exactly as by the calendar). -/
def Fecha.key (f : Fecha) : Nat := f.y * 10000 + f.m * 100 + f.d

/-- Date comparison used for the SQL fecha >= / <= filters. -/
def Fecha.le (a b : Fecha) : Bool := decide (a.key ≤ b.key)

/-- Row of expokossodo_eventos (class ExpoEventos in app/db/models.py),
restricted to the columns the embedded queries read. -/
structure ExpoEvento where
  id : Nat
  fecha : Fecha
  hora : String
  sala : String
  titulo_charla : String
  expositor : String
  descripcion : Option String
  slots_disponibles : Option Nat
  slots_ocupados : Option Nat
  disponible : Bool
deriving DecidableEq, Repr

/-- Row of expokossodo_registros (class ExpoRegistros), restricted to the
columns the embedded queries read. -/
structure ExpoRegistro where
  id : Nat
  nombres : String
  correo : String
  empresa : String
  qr_code : Option String
deriving DecidableEq, Repr

/-- Row of expokossodo_registro_eventos (class ExpoRegistroEventos). -/
structure ExpoRegistroEvento where
  id : Nat
  registro_id : Nat
  evento_id : Nat
  fecha_seleccion : Int
deriving DecidableEq, Repr

/-- Row of expokossodo_asistencias_por_sala (class ExpoAsistenciasPorSala):
note the table has no estado column. -/
structure AsisSala where
  registro_id : Nat
  evento_id : Nat
  qr_escaneado : String
  fecha_ingreso : Int
  asesor_verificador : String
  ip_verificacion : Option String
  notas : Option String
deriving DecidableEq, Repr

/-- The database tables the embedded queries touch. -/
structure DB where
  eventos : List ExpoEvento
  registros : List ExpoRegistro
  registro_eventos : List ExpoRegistroEvento
  asistencias_por_sala : List AsisSala
deriving DecidableEq, Repr

/-! ## app/db/queries.py : AsistenciaQueries.confirmar_asistencia -/

/-- Python truthiness of an optional string (None and the empty string are
falsy), used for the if observacion / if ip_verificacion guards. -/
def truthyStr : Option String → Bool
  | some s => decide (s ≠ "")
  | none => false

/-- The WHERE clause of the existing-record lookup: both components of the
composite key match. -/
def asisKey (registro_id evento_id : Nat) (a : AsisSala) : Bool :=
  decide (a.registro_id = registro_id ∧ a.evento_id = evento_id)

/-- Replace the first element satisfying p by its image under f, leaving the
rest alone: the ORM update of the single object scalar_one_or_none fetched. -/
def updateFirst (p : α → Bool) (f : α → α) : List α → List α
  | [] => []
  | x :: xs => if p x then f x :: xs else x :: updateFirst p f xs

/-- Fallback QR string written on the create path when the registration has
no (truthy) qr_code: the f-string manual_registro_evento. -/
def manualQr (registro_id evento_id : Nat) : String :=
  "manual_" ++ toString registro_id ++ "_" ++ toString evento_id

/-- Update applied to the existing record on the if existing branch of
AsistenciaQueries.confirmar_asistencia (app/db/queries.py lines 283-290). -/
def updExisting (asesor_verificador : String)
    (observacion ip_verificacion : Option String) (now : Int)
    (a : AsisSala) : AsisSala :=
  { a with
    asesor_verificador := asesor_verificador,
    fecha_ingreso := now,
    notas := if truthyStr observacion then observacion else a.notas,
    ip_verificacion :=
      if truthyStr ip_verificacion then ip_verificacion
      else a.ip_verificacion }

/-- Record built on the create path of AsistenciaQueries.confirmar_asistencia
(app/db/queries.py lines 292-306): the qr_code of the registration is looked
up and qr_code or the manual fallback is scanned in (Python or: None and the
empty string both fall back). -/
def newAsistencia (db : DB) (registro_id evento_id : Nat)
    (asesor_verificador : String) (observacion ip_verificacion : Option String)
    (now : Int) : AsisSala :=
  let qr_code :=
    (db.registros.find? (fun r => decide (r.id = registro_id))).bind
      (fun r => r.qr_code)
  let qr :=
    match qr_code with
    | some q => if q = "" then manualQr registro_id evento_id else q
    | none => manualQr registro_id evento_id
  { registro_id := registro_id, evento_id := evento_id,
    qr_escaneado := qr, fecha_ingreso := now,
    asesor_verificador := asesor_verificador,
    ip_verificacion := ip_verificacion, notas := observacion }

/-- AsistenciaQueries.confirmar_asistencia (app/db/queries.py lines 261-309).
Looks up the existing record by composite key (scalar_one_or_none, modelled
as first match; the claims are proved under the at-most-one invariant under
which the two agree). If present: set asesor_verificador and fecha_ingreso,
and overwrite notas / ip_verificacion only when the new value is truthy. If
absent: read the registration's qr_code and insert one new record, with the
manual fallback when the qr_code is missing or falsy. No existence check of
the registration or the event is performed, and the function returns True on
every path. The estado argument is accepted and never used. Timestamps
(func.current_timestamp and the column server default) are the now argument. -/
def confirmar_asistencia (db : DB) (registro_id evento_id : Nat)
    (estado : String) (asesor_verificador : String)
    (observacion ip_verificacion : Option String) (now : Int) : Bool × DB :=
  let _ := estado
  match db.asistencias_por_sala.find? (asisKey registro_id evento_id) with
  | some _ =>
      let upserted :=
        updateFirst (asisKey registro_id evento_id)
          (updExisting asesor_verificador observacion ip_verificacion now)
          db.asistencias_por_sala
      (true, { db with asistencias_por_sala := upserted })
  | none =>
      (true, { db with
               asistencias_por_sala := db.asistencias_por_sala ++
                 [newAsistencia db registro_id evento_id asesor_verificador
                   observacion ip_verificacion now] })

/-! ## app/services/asistencia.py and app/api/tools.py : confirmarAsistencia -/

/-- ConfirmarAsistenciaInput of app/schemas/tools_in.py (lines 64-83). The
pydantic pattern constraint on estado is estadoPatternOk below. -/
structure ConfirmarAsistenciaInput where
  registroId : Nat
  eventoId : Nat
  estado : String
  observacion : Option String
deriving DecidableEq, Repr

/-- The anchored pattern (PRESENTE|AUSENTE|TARDE) validating estado at the
interface. -/
def estadoPatternOk (s : String) : Bool :=
  decide (s = "PRESENTE" ∨ s = "AUSENTE" ∨ s = "TARDE")

/-- ConfirmarAsistenciaOutput of app/schemas/tools_out.py: ok flag,
timestamp, and the two ids echoed back. No estado field. -/
structure ConfirmarAsistenciaOutput where
  ok : Bool
  timestamp : Int
  registroId : Nat
  eventoId : Nat
deriving DecidableEq, Repr

/-- AsistenciaService.confirmar_asistencia (app/services/asistencia.py lines
19-85): run the query, return None when it reports failure, otherwise build
the output from the input ids and the current time. -/
def confirmar_asistencia_service (db : DB) (input_data : ConfirmarAsistenciaInput)
    (asesor_verificador : String) (ip_verificacion : Option String) (now : Int) :
    Option ConfirmarAsistenciaOutput × DB :=
  let r := confirmar_asistencia db input_data.registroId input_data.eventoId
      input_data.estado asesor_verificador input_data.observacion
      ip_verificacion now
  if r.1 then
    (some { ok := true, timestamp := now, registroId := input_data.registroId,
            eventoId := input_data.eventoId }, r.2)
  else (none, r.2)

/-- Machine-readable error of app/schemas/tools_out.py MCPError, with the
details the 404 branch of the confirmarAsistencia endpoint fills in. -/
structure MCPError where
  error : String
  message : String
  details : List (String × Nat)
deriving DecidableEq, Repr

/-- Endpoint body of POST /confirmarAsistencia (app/api/tools.py lines
205-285) after authentication, permission and rate limiting: call the
service with the authenticated username as verifier and the client ip; a
None service result becomes the 404 NOT_FOUND error naming both ids,
otherwise the confirmation is returned. -/
def confirmar_asistencia_endpoint (db : DB) (input_data : ConfirmarAsistenciaInput)
    (username : String) (client_ip : Option String) (now : Int) :
    Except MCPError ConfirmarAsistenciaOutput × DB :=
  match confirmar_asistencia_service db input_data username client_ip now with
  | (none, db1) =>
      (.error { error := "NOT_FOUND",
                message := "Registration or event not found",
                details := [("registroId", input_data.registroId),
                            ("eventoId", input_data.eventoId)] }, db1)
  | (some out, db1) => (.ok out, db1)

/-! ## Claim C1 : at-most-one record, key stability, last-writer verifier -/

/-- Records stored for one (registro, evento) composite key. -/
def pairRecords (db : DB) (r e : Nat) : List AsisSala :=
  db.asistencias_por_sala.filter (asisKey r e)

/-- One confirmAttendance call for a fixed (registro, evento) pair: the
per-call inputs of the tool. -/
structure ConfirmCall where
  estado : String
  asesor : String
  observacion : Option String
  ip : Option String
  now : Int
deriving DecidableEq, Repr

/-- Sequential application of a list of confirmAttendance calls for the same
(registro, evento) pair. -/
def applyConfirms (r e : Nat) : DB → List ConfirmCall → DB
  | db, [] => db
  | db, c :: cs =>
      applyConfirms r e
        (confirmar_asistencia db r e c.estado c.asesor c.observacion
          c.ip c.now).2 cs

theorem filter_eq_of_find?_some {α : Type} {p : α → Bool} {l : List α} {a : α}
    (hfind : l.find? p = some a) (hlen : (l.filter p).length ≤ 1) :
    l.filter p = [a] := by
  induction l with
  | nil => simp at hfind
  | cons x xs ih =>
      by_cases hx : p x
      · rw [List.find?_cons_of_pos _ hx] at hfind
        injection hfind with h
        subst h
        rw [List.filter_cons_of_pos hx] at hlen ⊢
        have h0 : xs.filter p = [] := by
          rw [List.length_cons] at hlen
          exact List.length_eq_zero.mp (by omega)
        rw [h0]
      · rw [List.find?_cons_of_neg _ hx] at hfind
        rw [List.filter_cons_of_neg hx] at hlen ⊢
        exact ih hfind hlen

theorem filter_updateFirst {α : Type} {p : α → Bool} {f : α → α}
    (hf : ∀ a, p a = true → p (f a) = true) :
    ∀ l : List α, (l.filter p).length ≤ 1 →
      (updateFirst p f l).filter p = (l.filter p).map f := by
  intro l
  induction l with
  | nil => intro _; rfl
  | cons x xs ih =>
      intro hlen
      by_cases hx : p x
      · simp only [updateFirst]
        rw [if_pos hx]
        rw [List.filter_cons_of_pos (hf x hx), List.filter_cons_of_pos hx]
        rw [List.filter_cons_of_pos hx, List.length_cons] at hlen
        have h0 : xs.filter p = [] := List.length_eq_zero.mp (by omega)
        rw [h0]
        rfl
      · simp only [updateFirst]
        rw [if_neg hx]
        rw [List.filter_cons_of_neg hx, List.filter_cons_of_neg hx]
        rw [List.filter_cons_of_neg hx] at hlen
        exact ih hlen

theorem asisKey_updExisting (r e : Nat) (ase : String) (obs ip : Option String)
    (now : Int) (a : AsisSala) (h : asisKey r e a = true) :
    asisKey r e (updExisting ase obs ip now a) = true := by
  simpa [asisKey, updExisting] using h

/-- One call for the pair leaves exactly one record for it, keyed (r, e),
whose verifier is the call's, provided at most one record existed before. -/
theorem pairRecords_confirm (db : DB) (r e : Nat) (est ase : String)
    (obs ip : Option String) (now : Int)
    (h : (pairRecords db r e).length ≤ 1) :
    ∃ rec : AsisSala,
      pairRecords (confirmar_asistencia db r e est ase obs ip now).2 r e =
        [rec] ∧
      rec.registro_id = r ∧ rec.evento_id = e ∧
      rec.asesor_verificador = ase := by
  cases hfind : db.asistencias_por_sala.find? (asisKey r e) with
  | none =>
      have hnil : db.asistencias_por_sala.filter (asisKey r e) = [] := by
        rw [List.filter_eq_nil_iff]
        intro a ha
        exact List.find?_eq_none.mp hfind a ha
      simp only [confirmar_asistencia, hfind, pairRecords, List.filter_append,
        hnil, List.nil_append]
      rw [List.filter_cons_of_pos (by simp [asisKey, newAsistencia]),
        List.filter_nil]
      exact ⟨_, rfl, by simp [newAsistencia], by simp [newAsistencia],
        by simp [newAsistencia]⟩
  | some a0 =>
      have hpa : asisKey r e a0 = true := List.find?_some hfind
      have hfilter : db.asistencias_por_sala.filter (asisKey r e) = [a0] :=
        filter_eq_of_find?_some hfind h
      have hkey := of_decide_eq_true hpa
      refine ⟨updExisting ase obs ip now a0, ?_, hkey.1, hkey.2, rfl⟩
      simp only [confirmar_asistencia, hfind, pairRecords]
      rw [filter_updateFirst (asisKey_updExisting r e ase obs ip now) _ h,
        hfilter]
      rfl

/-- Claim C1: starting from a store with at most one record for the
(registro, evento) pair, any nonempty sequence of confirmAttendance calls
for that pair leaves exactly one stored record for it, its composite key is
(registro, evento), and its stored verifier is the verifier of the last
call of the sequence. -/
theorem confirm_attendance_idempotent (db : DB) (r e : Nat)
    (calls : List ConfirmCall) (h1 : (pairRecords db r e).length ≤ 1)
    (h2 : calls ≠ []) :
    ∃ rec : AsisSala,
      pairRecords (applyConfirms r e db calls) r e = [rec] ∧
      rec.registro_id = r ∧ rec.evento_id = e ∧
      rec.asesor_verificador = (calls.getLast h2).asesor := by
  induction calls generalizing db with
  | nil => exact absurd rfl h2
  | cons c cs ih =>
      cases cs with
      | nil =>
          simpa [applyConfirms] using
            pairRecords_confirm db r e c.estado c.asesor c.observacion
              c.ip c.now h1
      | cons c2 cs2 =>
          obtain ⟨rec1, hrec1, -, -, -⟩ :=
            pairRecords_confirm db r e c.estado c.asesor c.observacion
              c.ip c.now h1
          have hlen1 : (pairRecords
              (confirmar_asistencia db r e c.estado c.asesor c.observacion
                c.ip c.now).2 r e).length ≤ 1 := by
            rw [hrec1]
            simp
          have hres := ih (confirmar_asistencia db r e c.estado c.asesor
            c.observacion c.ip c.now).2 hlen1 (by simp)
          rw [List.getLast_cons (by simp : (c2 :: cs2 : List ConfirmCall) ≠ [])]
          exact hres

/-- Empty database used by several witnesses. -/
def emptyDB : DB :=
  { eventos := [], registros := [], registro_eventos := [],
    asistencias_por_sala := [] }

/-- Two-call sequence with distinct verifiers used by the C1 witness. -/
def twoCalls : List ConfirmCall :=
  [{ estado := "PRESENTE", asesor := "ana", observacion := none,
     ip := none, now := 10 },
   { estado := "PRESENTE", asesor := "beto",
     observacion := some "llego tarde", ip := some "10.0.0.7", now := 20 }]

/-- Witness for confirm_attendance_idempotent: two successive calls with
different verifiers on a store holding no record for (1037, 123) leave
exactly one record, keyed (1037, 123), with the second verifier. -/
theorem confirm_attendance_idempotent_witness :
    (pairRecords emptyDB 1037 123).length ≤ 1 ∧
    ∃ rec : AsisSala,
      pairRecords (applyConfirms 1037 123 emptyDB twoCalls) 1037 123 =
        [rec] ∧
      rec.registro_id = 1037 ∧ rec.evento_id = 123 ∧
      rec.asesor_verificador = (twoCalls.getLast (by decide)).asesor :=
  ⟨by decide,
    confirm_attendance_idempotent emptyDB 1037 123 twoCalls (by decide)
      (by decide)⟩

/-! ## Claim C2 : missing existence check on the create path -/

/-- Claim C2 is violated by the code: the query layer returns True on every
path (first conjunct), so the service never yields None and the NOT_FOUND
branch of the endpoint is unreachable. Evaluating the endpoint on an empty
store (registration 999999 and event 1 do not exist) returns an ok
confirmation, not NotFound, and inserts a record with the synthesized QR
manual_999999_1 (second conjunct). -/
theorem confirmar_asistencia_never_notfound :
    (∀ (db : DB) (r e : Nat) (est ase : String) (obs ip : Option String)
        (now : Int),
        (confirmar_asistencia db r e est ase obs ip now).1 = true) ∧
    confirmar_asistencia_endpoint emptyDB
      { registroId := 999999, eventoId := 1, estado := "PRESENTE",
        observacion := none } "puerta1" (some "10.1.1.1") 50 =
      (.ok { ok := true, timestamp := 50, registroId := 999999,
             eventoId := 1 },
       { emptyDB with asistencias_por_sala :=
          [{ registro_id := 999999, evento_id := 1,
             qr_escaneado := "manual_999999_1", fecha_ingreso := 50,
             asesor_verificador := "puerta1",
             ip_verificacion := some "10.1.1.1", notas := none }] }) := by
  constructor
  · intro db r e est ase obs ip now
    cases hf : db.asistencias_por_sala.find? (asisKey r e) <;>
      simp [confirmar_asistencia, hf]
  · rfl

/-! ## Claim C9 : the estado input is validated but never used -/

/-- Claim C9: the attendance upsert and the service response are independent
of the estado input: two calls identical except for estado produce identical
stored state and identical returned confirmation (for all strings, hence in
particular for the three values PRESENTE, AUSENTE, TARDE that the interface
pattern admits); the interface pattern accepts exactly those three values.
The stored row type AsisSala mirrors expokossodo_asistencias_por_sala, which
has no estado column. -/
theorem confirm_attendance_estado_independent :
    (∀ (db : DB) (r e : Nat) (est1 est2 ase : String)
        (obs ip : Option String) (now : Int),
        confirmar_asistencia db r e est1 ase obs ip now =
          confirmar_asistencia db r e est2 ase obs ip now) ∧
    (∀ (db : DB) (inp : ConfirmarAsistenciaInput) (est1 est2 ase : String)
        (ip : Option String) (now : Int),
        confirmar_asistencia_service db { inp with estado := est1 } ase ip
            now =
          confirmar_asistencia_service db { inp with estado := est2 } ase ip
            now) ∧
    (∀ s : String, estadoPatternOk s = true ↔
        (s = "PRESENTE" ∨ s = "AUSENTE" ∨ s = "TARDE")) :=
  ⟨fun _ _ _ _ _ _ _ _ _ => rfl,
   fun _ _ _ _ _ _ _ => rfl,
   fun s => by simp [estadoPatternOk]⟩

/-! ## app/db/queries.py : InscritosQueries, and claim C10 -/

/-- SQL ilike with a pattern of shape percent-text-percent: case-insensitive
substring containment. -/
def likeContains (pat s : String) : Bool :=
  decide (List.IsInfix pat.toLower.toList s.toLower.toList)

/-- Python truthiness of an optional integer (None and 0 are falsy). -/
def truthyNat : Option Nat → Bool
  | some n => decide (n ≠ 0)
  | none => false

/-- Insert keeping a descending key order; equal keys stay behind earlier
elements, so the sort below is stable. -/
def insertByKeyDesc {α β : Type} [LinearOrder β] (key : α → β) (x : α) :
    List α → List α
  | [] => [x]
  | y :: ys =>
      if key y < key x then x :: y :: ys else y :: insertByKeyDesc key x ys

/-- Stable sort by a key, descending: the model of SQL ORDER BY key DESC
(rows of equal key keep their store order; SQL leaves that order open and
this is one legitimate engine linearization). -/
def sortByKeyDesc {α β : Type} [LinearOrder β] (key : α → β)
    (l : List α) : List α :=
  l.foldl (fun acc x => insertByKeyDesc key x acc) []

/-- Row shape of the lista entries built by both InscritosQueries functions
(app/db/queries.py lines 133-143 and 192-202). -/
structure InscritoRow where
  registroId : Nat
  nombre : String
  empresa : String
  email : String
  estado : String
  creadoEn : Int
deriving DecidableEq, Repr

/-- Inner join of expokossodo_registro_eventos with expokossodo_registros on
the registration id (ids are primary keys, so the first match is the only
one). -/
def joinRegEvRegistros (db : DB) :
    List (ExpoRegistroEvento × ExpoRegistro) :=
  db.registro_eventos.filterMap (fun re =>
    (db.registros.find? (fun reg => decide (reg.id = re.registro_id))).map
      (fun reg => (re, reg)))

/-- Triple join adding expokossodo_eventos on the event id, used by
get_inscritos_by_filters. -/
def joinRegEvRegistrosEventos (db : DB) :
    List (ExpoRegistroEvento × ExpoRegistro × ExpoEvento) :=
  db.registro_eventos.filterMap (fun re =>
    match db.registros.find? (fun reg => decide (reg.id = re.registro_id)),
        db.eventos.find? (fun ev => decide (ev.id = re.evento_id)) with
    | some reg, some ev => some (re, reg, ev)
    | _, _ => none)

/-- InscritosQueries.get_inscritos_by_evento (app/db/queries.py lines
92-145): count and page the join rows of one event, ordered by
fecha_seleccion descending; the estado_inscripcion argument is ignored (the
table has no estado field, as the source comments) and every built row
carries the literal estado INSCRITO. -/
def get_inscritos_by_evento (db : DB) (evento_id : Nat)
    (estado_inscripcion : Option String) (page page_size : Nat) :
    Nat × List InscritoRow :=
  let _ := estado_inscripcion
  let rows := (joinRegEvRegistros db).filter
    (fun p => decide (p.1.evento_id = evento_id))
  let total := rows.length
  let offset := (page - 1) * page_size
  let pageRows :=
    ((sortByKeyDesc (fun p => p.1.fecha_seleccion) rows).drop offset).take
      page_size
  (total, pageRows.map (fun p =>
    { registroId := p.2.id, nombre := p.2.nombres, empresa := p.2.empresa,
      email := p.2.correo, estado := "INSCRITO",
      creadoEn := p.1.fecha_seleccion }))

/-- InscritosQueries.get_inscritos_by_filters (app/db/queries.py lines
147-204): same projection over the triple join, filtered by day and room;
the estado_inscripcion argument is ignored here too. -/
def get_inscritos_by_filters (db : DB) (dia : Option Fecha)
    (sala : Option String) (estado_inscripcion : Option String)
    (page page_size : Nat) : Nat × List InscritoRow :=
  let _ := estado_inscripcion
  let rows := (joinRegEvRegistrosEventos db).filter (fun p =>
    (match dia with
     | some d => decide (p.2.2.fecha = d)
     | none => true) &&
    (match sala with
     | some s => likeContains s p.2.2.sala
     | none => true))
  let total := rows.length
  let offset := (page - 1) * page_size
  let pageRows :=
    ((sortByKeyDesc (fun p => p.1.fecha_seleccion) rows).drop offset).take
      page_size
  (total, pageRows.map (fun p =>
    { registroId := p.2.1.id, nombre := p.2.1.nombres,
      empresa := p.2.1.empresa, email := p.2.1.correo,
      estado := "INSCRITO", creadoEn := p.1.fecha_seleccion }))

/-- GetInscritosInput of app/schemas/tools_in.py (lines 25-49). -/
structure GetInscritosInput where
  eventoId : Option Nat
  dia : Option Fecha
  sala : Option String
  estadoInscripcion : Option String
  page : Nat
  pageSize : Nat
deriving DecidableEq, Repr

/-- GetInscritosOutput of app/schemas/tools_out.py. -/
structure GetInscritosOutput where
  total : Nat
  page : Nat
  pageSize : Nat
  lista : List InscritoRow
deriving DecidableEq, Repr

/-- InscritosService.get_inscritos (app/services/inscritos.py lines 22-94):
route to the by-event query when eventoId is truthy (Python if, so 0 routes
to the filter query), else to the filter query, and wrap the page. -/
def get_inscritos_service (db : DB) (inp : GetInscritosInput) :
    GetInscritosOutput :=
  if truthyNat inp.eventoId then
    { total := (get_inscritos_by_evento db (inp.eventoId.getD 0)
        inp.estadoInscripcion inp.page inp.pageSize).1,
      page := inp.page, pageSize := inp.pageSize,
      lista := (get_inscritos_by_evento db (inp.eventoId.getD 0)
        inp.estadoInscripcion inp.page inp.pageSize).2 }
  else
    { total := (get_inscritos_by_filters db inp.dia inp.sala
        inp.estadoInscripcion inp.page inp.pageSize).1,
      page := inp.page, pageSize := inp.pageSize,
      lista := (get_inscritos_by_filters db inp.dia inp.sala
        inp.estadoInscripcion inp.page inp.pageSize).2 }

/-- Claim C10: both registrant queries and the service are independent of the
estadoInscripcion filter (any two otherwise-identical queries agree on total
and rows), and every returned row reports estado INSCRITO. -/
theorem get_inscritos_estado_filter_ignored :
    (∀ (db : DB) (evento_id : Nat) (est1 est2 : Option String)
        (page page_size : Nat),
        get_inscritos_by_evento db evento_id est1 page page_size =
          get_inscritos_by_evento db evento_id est2 page page_size) ∧
    (∀ (db : DB) (dia : Option Fecha) (sala : Option String)
        (est1 est2 : Option String) (page page_size : Nat),
        get_inscritos_by_filters db dia sala est1 page page_size =
          get_inscritos_by_filters db dia sala est2 page page_size) ∧
    (∀ (db : DB) (inp : GetInscritosInput) (est1 est2 : Option String),
        get_inscritos_service db { inp with estadoInscripcion := est1 } =
          get_inscritos_service db { inp with estadoInscripcion := est2 }) ∧
    (∀ (db : DB) (inp : GetInscritosInput),
        ∀ row ∈ (get_inscritos_service db inp).lista,
          row.estado = "INSCRITO") := by
  refine ⟨fun _ _ _ _ _ _ => rfl, fun _ _ _ _ _ _ _ => rfl,
    fun _ _ _ _ => rfl, ?_⟩
  intro db inp row hrow
  by_cases h : truthyNat inp.eventoId = true
  · simp only [get_inscritos_service, h, if_true,
      get_inscritos_by_evento] at hrow
    obtain ⟨p, -, rfl⟩ := List.mem_map.mp hrow
    rfl
  · simp only [get_inscritos_service, h, if_false,
      get_inscritos_by_filters] at hrow
    obtain ⟨p, -, rfl⟩ := List.mem_map.mp hrow
    rfl

/-! ## app/services/estadisticas.py : the KPI engine -/

/-- Gregorian leap year rule, as validated by the Python date machinery. -/
def isLeap (y : Nat) : Bool :=
  (y % 4 = 0 && decide (y % 100 ≠ 0)) || y % 400 = 0

/-- Days of a month, as validated by the Python date machinery. -/
def daysInMonth (y m : Nat) : Nat :=
  if m = 2 then (if isLeap y then 29 else 28)
  else if m = 4 ∨ m = 6 ∨ m = 9 ∨ m = 11 then 30
  else 31

/-- Split a character list on the dash separator. -/
def splitDash : List Char → List Char → List (List Char)
  | [], acc => [acc.reverse]
  | c :: cs, acc =>
      if c = '-' then acc.reverse :: splitDash cs []
      else splitDash cs (c :: acc)

/-- Decimal digit value of a character, if it is one. -/
def charDigit? (c : Char) : Option Nat :=
  if '0' ≤ c ∧ c ≤ '9' then some (c.toNat - '0'.toNat) else none

def parseDigitsAux : List Char → Nat → Option Nat
  | [], acc => some acc
  | c :: cs, acc =>
      match charDigit? c with
      | some d => parseDigitsAux cs (acc * 10 + d)
      | none => none

/-- Nonempty all-digit character list as a decimal number. -/
def parseDigits : List Char → Option Nat
  | [] => none
  | cs => parseDigitsAux cs 0

/-- Model of datetime.strptime(s, percentY-percentm-percentd).date() used at
app/services/estadisticas.py lines 40-41: three dash-separated decimal
fields forming a valid calendar date, None on any failure (strptime raises
ValueError there). -/
def parseDate (s : String) : Option Fecha :=
  match splitDash s.data [] with
  | [ys, ms, ds] =>
      match parseDigits ys, parseDigits ms, parseDigits ds with
      | some y, some m, some d =>
          if 1 ≤ m ∧ m ≤ 12 ∧ 1 ≤ d ∧ d ≤ daysInMonth y m then
            some ⟨y, m, d⟩
          else none
      | _, _, _ => none
  | _ => none

/-- Zero-padded two-digit rendering, as Python date str() uses. -/
def pad2 (n : Nat) : String :=
  if n < 10 then "0" ++ toString n else toString n

/-- String rendering of a date, for the f-string periodo detail. -/
def fechaStr (f : Fecha) : String :=
  toString f.y ++ "-" ++ pad2 f.m ++ "-" ++ pad2 f.d

/-- The WHERE clause shared by all KPI queries: fecha between the range ends
inclusively. -/
def inRange (a b : Fecha) (f : Fecha) : Bool :=
  Fecha.le a f && Fecha.le f b

/-- Join of expokossodo_registro_eventos with expokossodo_eventos on the
event id. -/
def regEvConEvento (db : DB) : List (ExpoRegistroEvento × ExpoEvento) :=
  db.registro_eventos.filterMap (fun re =>
    (db.eventos.find? (fun ev => decide (ev.id = re.evento_id))).map
      (fun ev => (re, ev)))

/-- Count behind the inscritos KPI (estadisticas.py lines 148-158): join rows
whose event date lies in range. -/
def countInscritosDB (db : DB) (a b : Fecha) : Nat :=
  ((regEvConEvento db).filter (fun p => inRange a b p.2.fecha)).length

/-- Join of expokossodo_asistencias_por_sala with expokossodo_eventos on the
event id. -/
def asisConEvento (db : DB) : List (AsisSala × ExpoEvento) :=
  db.asistencias_por_sala.filterMap (fun asis =>
    (db.eventos.find? (fun ev => decide (ev.id = asis.evento_id))).map
      (fun ev => (asis, ev)))

/-- Count behind the attendance side of tasaAsistencia (estadisticas.py lines
193-203). -/
def countAsisDB (db : DB) (a b : Fecha) : Nat :=
  ((asisConEvento db).filter (fun p => inRange a b p.2.fecha)).length

/-- First-occurrence deduplication: the distinct keys of a SQL GROUP BY, in
the order the rows stream in. -/
def dedupFirst {α : Type} [DecidableEq α] : List α → List α :=
  go []
where
  go (seen : List α) : List α → List α
    | [] => []
    | x :: xs => if x ∈ seen then go seen xs else x :: go (x :: seen) xs

/-- Source organizations (empresa) of the in-range registrations, one per
join row of registros-registro_eventos-eventos (estadisticas.py lines
257-267; the empresa column is non-nullable, so the coalesce of the query is
the identity here). -/
def fuentesInRange (db : DB) (a b : Fecha) : List String :=
  ((db.registro_eventos.filterMap (fun re =>
    match db.registros.find? (fun reg => decide (reg.id = re.registro_id)),
        db.eventos.find? (fun ev => decide (ev.id = re.evento_id)) with
    | some reg, some ev => some (reg, ev)
    | _, _ => none)).filter (fun p => inRange a b p.2.fecha)).map
      (fun p => p.1.empresa)

/-- GROUP BY empresa with count(*): one pair per distinct empresa, counts
over the in-range rows, in first-occurrence order. -/
def leadsGroups (db : DB) (a b : Fecha) : List (String × Nat) :=
  (dedupFirst (fuentesInRange db a b)).map
    (fun f => (f, ((fuentesInRange db a b).filter (fun g => g = f)).length))

/-- ORDER BY count(*) DESC LIMIT 10 of the leads query: the source orders by
the count only, with no secondary sort key; the model linearizes ties in
first-occurrence order (a stable descending sort), one legitimate engine
behaviour. -/
def leadsTopDB (db : DB) (a b : Fecha) : List (String × Nat) :=
  (sortByKeyDesc Prod.snd (leadsGroups db a b)).take 10

/-- Events of the in-range registro_eventos join rows (one occurrence per
registration), for the eventosMasPopulares GROUP BY. -/
def eventosInRange (db : DB) (a b : Fecha) : List ExpoEvento :=
  ((regEvConEvento db).filter (fun p => inRange a b p.2.fecha)).map
    (fun p => p.2)

/-- GROUP BY event with count of registrations (estadisticas.py lines
298-312), in first-occurrence order. -/
def eventosGroups (db : DB) (a b : Fecha) :
    List (Nat × String × String × Nat) :=
  (dedupFirst (eventosInRange db a b)).map (fun ev =>
    (ev.id, ev.titulo_charla, ev.sala,
     ((eventosInRange db a b).filter (fun e2 => e2 = ev)).length))

/-- ORDER BY count DESC LIMIT 10 of the eventos query, linearized as for the
leads query. -/
def eventosTopDB (db : DB) (a b : Fecha) :
    List (Nat × String × String × Nat) :=
  (sortByKeyDesc (fun g => g.2.2.2) (eventosGroups db a b)).take 10

/-- The db.execute calls the KPI engine performs, as an interface: each can
fail (SQLAlchemy raises inside the per-KPI try of _calculate_kpi). -/
structure Store where
  countRegEvRange : Fecha → Fecha → Except String Nat
  countAsisRange : Fecha → Fecha → Except String Nat
  leadsRows : Fecha → Fecha → Except String (List (String × Nat))
  eventosRows : Fecha → Fecha → Except String (List (Nat × String × String × Nat))

/-- The healthy store over a database state: the relational semantics of the
four SQL statements of estadisticas.py, never failing. COUNT never returns
NULL, so the or-0 guards of the source are identities here. -/
def storeOfDB (db : DB) : Store :=
  { countRegEvRange := fun a b => .ok (countInscritosDB db a b),
    countAsisRange := fun a b => .ok (countAsisDB db a b),
    leadsRows := fun a b => .ok (leadsTopDB db a b),
    eventosRows := fun a b => .ok (eventosTopDB db a b) }

/-- Round to nearest integer, ties to even: the rounding of CPython round on
the exact value (the source computes over IEEE doubles; the model computes
over exact rationals). -/
def roundHalfEven (q : ℚ) : ℤ :=
  let f := ⌊q⌋
  let r := q - f
  if r < 1 / 2 then f
  else if 1 / 2 < r then f + 1
  else if f % 2 = 0 then f else f + 1

/-- Python round(x, 2) over exact rationals. -/
def round2 (q : ℚ) : ℚ :=
  (roundHalfEven (q * 100) : ℚ) / 100

/-- Structured detalle payloads of the six KPIs, one constructor per shape
built in estadisticas.py. -/
inductive KpiDetalle where
  | inscritosD (granularidad : String) (periodo : String)
  | tasaD (inscritos asistieron : Nat) (porcentaje : ℚ)
  | noShowD (inscritos asistieron : Nat) (noShows : Int)
  | leadsD (totalLeads : Nat) (topFuentes : List (String × Nat))
  | eventosD (totalEventos : Nat)
      (topEventos : List (Nat × String × String × Nat))
deriving DecidableEq, Repr

/-- KpiInfo of app/schemas/tools_out.py: name, scalar value (the source uses
Python numbers; integers embed into the rationals), structured detail. -/
structure KpiInfo where
  nombre : String
  valor : ℚ
  detalle : KpiDetalle
deriving DecidableEq, Repr

/-- EstadisticasService._kpi_inscritos (estadisticas.py lines 137-167); the
alias argument serves the confirmados branch. -/
def kpi_inscritos (st : Store) (granularidad : String) (a b : Fecha)
    (aliasNombre : String) : Except String KpiInfo := do
  let total ← st.countRegEvRange a b
  return { nombre := aliasNombre, valor := total,
           detalle := .inscritosD granularidad
             (fechaStr a ++ " a " ++ fechaStr b) }

/-- EstadisticasService._kpi_tasa_asistencia (estadisticas.py lines 169-216):
rate = asistieron * 100 / inscritos when inscritos > 0, else 0; value and
the porcentaje detail are round(tasa, 2). -/
def kpi_tasa_asistencia (st : Store) (granularidad : String) (a b : Fecha) :
    Except String KpiInfo := do
  let _ := granularidad
  let total_inscritos ← st.countRegEvRange a b
  let total_asistieron ← st.countAsisRange a b
  let tasa : ℚ :=
    if 0 < total_inscritos then
      (total_asistieron * 100 : ℚ) / total_inscritos
    else 0
  return { nombre := "tasaAsistencia", valor := round2 tasa,
           detalle := .tasaD total_inscritos total_asistieron (round2 tasa) }

/-- EstadisticasService._kpi_no_show (estadisticas.py lines 218-245): reads
the inscritos and asistieron entries out of the tasaAsistencia detail dict
(the error branch models the KeyError a wrong shape would raise; tasa always
returns the tasaD shape, so it is unreachable). -/
def kpi_no_show (st : Store) (granularidad : String) (a b : Fecha) :
    Except String KpiInfo := do
  let tasa_kpi ← kpi_tasa_asistencia st granularidad a b
  match tasa_kpi.detalle with
  | .tasaD ins asis _ =>
      return { nombre := "noShow", valor := ((ins : Int) - asis : Int),
               detalle := .noShowD ins asis ((ins : Int) - asis) }
  | _ => .error "KeyError"

/-- EstadisticasService._kpi_leads_por_fuente (estadisticas.py lines
247-286): value is the sum of the counts of the limited top list. -/
def kpi_leads_por_fuente (st : Store) (granularidad : String) (a b : Fecha) :
    Except String KpiInfo := do
  let _ := granularidad
  let fuentes ← st.leadsRows a b
  let total_leads := (fuentes.map Prod.snd).sum
  return { nombre := "leadsPorFuente", valor := total_leads,
           detalle := .leadsD total_leads fuentes }

/-- EstadisticasService._kpi_eventos_populares (estadisticas.py lines
288-334). -/
def kpi_eventos_populares (st : Store) (granularidad : String) (a b : Fecha) :
    Except String KpiInfo := do
  let _ := granularidad
  let eventos ← st.eventosRows a b
  return { nombre := "eventosMasPopulares", valor := eventos.length,
           detalle := .eventosD eventos.length eventos }

/-- EstadisticasService._calculate_kpi (estadisticas.py lines 86-135): route
on the KPI name (an unknown name logs a warning and yields None); any
exception of the computation is caught, logged, and becomes None. -/
def calculate_kpi (st : Store) (kpi_name granularidad : String)
    (a b : Fecha) : Option KpiInfo :=
  let r : Except String (Option KpiInfo) :=
    if kpi_name = "inscritos" then
      (kpi_inscritos st granularidad a b "inscritos").map some
    else if kpi_name = "confirmados" then
      (kpi_inscritos st granularidad a b "confirmados").map some
    else if kpi_name = "tasaAsistencia" then
      (kpi_tasa_asistencia st granularidad a b).map some
    else if kpi_name = "noShow" then
      (kpi_no_show st granularidad a b).map some
    else if kpi_name = "leadsPorFuente" then
      (kpi_leads_por_fuente st granularidad a b).map some
    else if kpi_name = "eventosMasPopulares" then
      (kpi_eventos_populares st granularidad a b).map some
    else .ok none
  match r with
  | .ok v => v
  | .error _ => none

/-- GetEstadisticasInput of app/schemas/tools_in.py (lines 86-129): the
rango dict is its inicio and fin fields. -/
structure GetEstadisticasInput where
  granularidad : String
  rango : String × String
  kpis : List String
deriving DecidableEq, Repr

/-- GetEstadisticasOutput of app/schemas/tools_out.py. -/
structure GetEstadisticasOutput where
  kpis : List KpiInfo
  granularidad : String
  periodo : String × String
deriving DecidableEq, Repr

/-- The for loop of get_estadisticas (estadisticas.py lines 44-56): append
each non-None KPI result in order. -/
def kpiLoop (st : Store) (names : List String) (granularidad : String)
    (a b : Fecha) : List KpiInfo :=
  match names with
  | [] => []
  | n :: ns =>
      match calculate_kpi st n granularidad a b with
      | some k => k :: kpiLoop st ns granularidad a b
      | none => kpiLoop st ns granularidad a b

/-- EstadisticasService.get_estadisticas (estadisticas.py lines 21-84):
parse the two range bounds first (a ValueError from strptime propagates to
the outer except, which logs and re-raises, failing the whole call), then
fold the per-KPI loop and assemble the output. -/
def get_estadisticas (st : Store) (input_data : GetEstadisticasInput) :
    Except String GetEstadisticasOutput :=
  match parseDate input_data.rango.1, parseDate input_data.rango.2 with
  | some fecha_inicio, some fecha_fin =>
      .ok { kpis := kpiLoop st input_data.kpis input_data.granularidad
              fecha_inicio fecha_fin,
            granularidad := input_data.granularidad,
            periodo := (input_data.rango.1, input_data.rango.2) }
  | _, _ => .error "ValueError: strptime"

/-! ## Claim C5 : per-KPI isolation, date parsing up front -/

/-- Claim C5 (amended): once the range bounds parse, the response is ok and
its KPI list is exactly the requested names mapped through the isolated
per-KPI computation, with the failed or unknown ones (None results of
_calculate_kpi) omitted and all others kept in order: one KPI failing never
aborts the others. (A malformed range, by contrast, fails the whole call
before any KPI runs: see the counterexample.) -/
theorem kpi_isolation (st : Store) (inp : GetEstadisticasInput) (a b : Fecha)
    (h1 : parseDate inp.rango.1 = some a)
    (h2 : parseDate inp.rango.2 = some b) :
    get_estadisticas st inp =
      .ok { kpis := inp.kpis.filterMap
              (fun n => calculate_kpi st n inp.granularidad a b),
            granularidad := inp.granularidad,
            periodo := (inp.rango.1, inp.rango.2) } := by
  have hloop : ∀ names, kpiLoop st names inp.granularidad a b =
      names.filterMap (fun n => calculate_kpi st n inp.granularidad a b) := by
    intro names
    induction names with
    | nil => rfl
    | cons n ns ih =>
        cases hc : calculate_kpi st n inp.granularidad a b with
        | some k => simp [kpiLoop, hc, ih, List.filterMap_cons]
        | none => simp [kpiLoop, hc, ih, List.filterMap_cons]
  simp only [get_estadisticas, h1, h2, hloop]

/-- Store that fails exactly the leads query, used by the C5 witness. -/
def failLeadsStore : Store :=
  { countRegEvRange := fun _ _ => .ok 5,
    countAsisRange := fun _ _ => .ok 3,
    leadsRows := fun _ _ => .error "OperationalError: connection lost",
    eventosRows := fun _ _ => .ok [] }

/-- Witness for kpi_isolation: with the leads query failing, requesting
inscritos, leadsPorFuente and noShow yields an ok response whose KPI list
evaluates to the inscritos and noShow results only. -/
theorem kpi_isolation_witness :
    parseDate "2025-08-01" = some ⟨2025, 8, 1⟩ ∧
    parseDate "2025-08-31" = some ⟨2025, 8, 31⟩ ∧
    get_estadisticas failLeadsStore
      { granularidad := "DIA", rango := ("2025-08-01", "2025-08-31"),
        kpis := ["inscritos", "leadsPorFuente", "noShow"] } =
      .ok { kpis := ["inscritos", "leadsPorFuente", "noShow"].filterMap
              (fun n => calculate_kpi failLeadsStore n "DIA"
                ⟨2025, 8, 1⟩ ⟨2025, 8, 31⟩),
            granularidad := "DIA",
            periodo := ("2025-08-01", "2025-08-31") } ∧
    (["inscritos", "leadsPorFuente", "noShow"].filterMap
        (fun n => calculate_kpi failLeadsStore n "DIA"
          ⟨2025, 8, 1⟩ ⟨2025, 8, 31⟩)).map (fun k => k.nombre) =
      ["inscritos", "noShow"] :=
  ⟨by decide, by decide,
    kpi_isolation failLeadsStore
      { granularidad := "DIA", rango := ("2025-08-01", "2025-08-31"),
        kpis := ["inscritos", "leadsPorFuente", "noShow"] }
      ⟨2025, 8, 1⟩ ⟨2025, 8, 31⟩ (by decide) (by decide),
    by decide⟩

/-- Counterexample to claim C5 as stated: a malformed date range is not an
isolated per-KPI failure; it aborts the whole call before any KPI is
computed, so no remaining KPI result is returned (the response is an error,
not an ok result with the other requested KPIs). -/
theorem malformed_range_fails_whole_call :
    get_estadisticas (storeOfDB emptyDB)
      { granularidad := "DIA", rango := ("not-a-date", "2025-08-31"),
        kpis := ["inscritos", "noShow"] } =
      .error "ValueError: strptime" ∧
    (get_estadisticas (storeOfDB emptyDB)
      { granularidad := "DIA", rango := ("not-a-date", "2025-08-31"),
        kpis := ["inscritos", "noShow"] }).toOption = none := by
  constructor <;> rfl

/-! ## Claim C6 : tasaAsistencia arithmetic -/

/-- Event within the example range, used by the C6 and C7 databases. -/
def evAug : ExpoEvento :=
  { id := 1, fecha := ⟨2025, 8, 15⟩, hora := "09:00", sala := "sala1",
    titulo_charla := "charla", expositor := "exp", descripcion := none,
    slots_disponibles := some 60, slots_ocupados := some 0,
    disponible := true }

/-- Database with 150 in-range registrations and 38 in-range attendance
confirmations. -/
def db150 : DB :=
  { eventos := [evAug],
    registros := [],
    registro_eventos := (List.range 150).map (fun i =>
      { id := i, registro_id := i, evento_id := 1, fecha_seleccion := 0 }),
    asistencias_por_sala := (List.range 38).map (fun i =>
      { registro_id := i, evento_id := 1, qr_escaneado := "q",
        fecha_ingreso := 0, asesor_verificador := "a",
        ip_verificacion := none, notas := none }) }

/-- Claim C6: over any database state, tasaAsistencia is
round2(asistieron * 100 / inscritos) when inscritos > 0 and round2 0 = 0
otherwise, with no failure raised; at 150 registrations and 38 attendance
confirmations in range the value is 25.33, and at 0 registrations it is 0. -/
theorem tasa_asistencia_kpi :
    (∀ (db : DB) (gran : String) (a b : Fecha),
        kpi_tasa_asistencia (storeOfDB db) gran a b =
          .ok { nombre := "tasaAsistencia",
                valor := round2 (if 0 < countInscritosDB db a b then
                    ((countAsisDB db a b : ℚ) * 100) / countInscritosDB db a b
                  else 0),
                detalle := .tasaD (countInscritosDB db a b)
                  (countAsisDB db a b)
                  (round2 (if 0 < countInscritosDB db a b then
                      ((countAsisDB db a b : ℚ) * 100) /
                        countInscritosDB db a b
                    else 0)) }) ∧
    kpi_tasa_asistencia (storeOfDB db150) "DIA" ⟨2025, 8, 1⟩ ⟨2025, 8, 31⟩ =
      .ok { nombre := "tasaAsistencia", valor := 2533 / 100,
            detalle := .tasaD 150 38 (2533 / 100) } ∧
    kpi_tasa_asistencia (storeOfDB emptyDB) "DIA" ⟨2025, 8, 1⟩ ⟨2025, 8, 31⟩ =
      .ok { nombre := "tasaAsistencia", valor := 0,
            detalle := .tasaD 0 0 0 } := by
  have hform : ∀ (db : DB) (gran : String) (a b : Fecha),
      kpi_tasa_asistencia (storeOfDB db) gran a b =
        .ok { nombre := "tasaAsistencia",
              valor := round2 (if 0 < countInscritosDB db a b then
                  ((countAsisDB db a b : ℚ) * 100) / countInscritosDB db a b
                else 0),
              detalle := .tasaD (countInscritosDB db a b)
                (countAsisDB db a b)
                (round2 (if 0 < countInscritosDB db a b then
                    ((countAsisDB db a b : ℚ) * 100) /
                      countInscritosDB db a b
                  else 0)) } := fun db gran a b => rfl
  have h150 : countInscritosDB db150 ⟨2025, 8, 1⟩ ⟨2025, 8, 31⟩ = 150 := by
    decide
  have h38 : countAsisDB db150 ⟨2025, 8, 1⟩ ⟨2025, 8, 31⟩ = 38 := by decide
  have h0i : countInscritosDB emptyDB ⟨2025, 8, 1⟩ ⟨2025, 8, 31⟩ = 0 := by
    decide
  have h0a : countAsisDB emptyDB ⟨2025, 8, 1⟩ ⟨2025, 8, 31⟩ = 0 := by decide
  have hval150 : round2 (if 0 < (150 : Nat) then
      (((38 : Nat) : ℚ) * 100) / ((150 : Nat) : ℚ) else 0) = 2533 / 100 := by
    rw [if_pos (by norm_num)]
    rw [show (((38 : Nat) : ℚ) * 100) / ((150 : Nat) : ℚ) = 76 / 3 by
      norm_num]
    simp only [round2, roundHalfEven]
    rw [show ((76 : ℚ) / 3 * 100) = 7600 / 3 by norm_num]
    rw [show (⌊(7600 / 3 : ℚ)⌋ : ℤ) = 2533 by norm_num]
    rw [if_pos (by norm_num)]
    norm_num
  have hval0 : round2 (if 0 < (0 : Nat) then
      (((0 : Nat) : ℚ) * 100) / ((0 : Nat) : ℚ) else 0) = 0 := by
    rw [if_neg (by norm_num)]
    simp only [round2, roundHalfEven]
    rw [show ((0 : ℚ) * 100) = 0 by norm_num]
    rw [show (⌊(0 : ℚ)⌋ : ℤ) = 0 by norm_num]
    rw [if_pos (by norm_num)]
    norm_num
  refine ⟨hform, ?_, ?_⟩
  · rw [hform db150 "DIA" ⟨2025, 8, 1⟩ ⟨2025, 8, 31⟩, h150, h38, hval150]
  · rw [hform emptyDB "DIA" ⟨2025, 8, 1⟩ ⟨2025, 8, 31⟩, h0i, h0a, hval0]

/-! ## Claim C7 : leadsPorFuente ordering -/

/-- Database with two organizations tied at one registration each; the
organization later in name order (Zeta) streams first. -/
def dbTies : DB :=
  { eventos := [evAug],
    registros :=
      [{ id := 1, nombres := "n1", correo := "c1", empresa := "Zeta",
         qr_code := none },
       { id := 2, nombres := "n2", correo := "c2", empresa := "Alpha",
         qr_code := none }],
    registro_eventos :=
      [{ id := 1, registro_id := 1, evento_id := 1, fecha_seleccion := 0 },
       { id := 2, registro_id := 2, evento_id := 1, fecha_seleccion := 0 }],
    asistencias_por_sala := [] }

/-- Lexicographic strict comparison of character lists. -/
def charsLt : List Char → List Char → Bool
  | [], [] => false
  | [], _ :: _ => true
  | _ :: _, [] => false
  | c :: cs, d :: ds =>
      if c < d then true else if d < c then false else charsLt cs ds

/-- Strict name order used by the claim's tie-break. -/
def strLtB (a b : String) : Bool := charsLt a.data b.data

/-- Insertion step of the ordering the claim requires: count descending,
ties broken by organization name ascending. Stated from the claim text for
comparison with the source query, which orders by count only. -/
def claimLeadsInsert (x : String × Nat) :
    List (String × Nat) → List (String × Nat)
  | [] => [x]
  | y :: ys =>
      if decide (y.2 < x.2) || (decide (x.2 = y.2) && strLtB x.1 y.1) then
        x :: y :: ys
      else y :: claimLeadsInsert x ys

/-- Sorting by the claim's order: count descending, name ascending on ties. -/
def claimLeadsSort : List (String × Nat) → List (String × Nat)
  | [] => []
  | x :: xs => claimLeadsInsert x (claimLeadsSort xs)

/-- Counterexample to claim C7 as stated: with two organizations tied at one
registration each, the source query (ORDER BY count DESC only, modelled with
ties in stream order) returns Zeta before Alpha, while the claimed
name-ascending tie-break requires Alpha before Zeta; the KPI detail carries
the former. -/
theorem leads_tie_order_counterexample :
    leadsTopDB dbTies ⟨2025, 8, 1⟩ ⟨2025, 8, 31⟩ =
      [("Zeta", 1), ("Alpha", 1)] ∧
    claimLeadsSort (leadsGroups dbTies ⟨2025, 8, 1⟩ ⟨2025, 8, 31⟩) =
      [("Alpha", 1), ("Zeta", 1)] ∧
    (kpi_leads_por_fuente (storeOfDB dbTies) "DIA" ⟨2025, 8, 1⟩
        ⟨2025, 8, 31⟩).toOption.map (fun k => k.detalle) =
      some (.leadsD 2 [("Zeta", 1), ("Alpha", 1)]) ∧
    ([("Zeta", 1), ("Alpha", 1)] : List (String × Nat)) ≠
      [("Alpha", 1), ("Zeta", 1)] :=
  ⟨by decide, by decide, by decide, by decide⟩

theorem insertByKeyDesc_perm {α β : Type} [LinearOrder β] (key : α → β)
    (x : α) (l : List α) : List.Perm (insertByKeyDesc key x l) (x :: l) := by
  induction l with
  | nil => exact List.Perm.refl _
  | cons y ys ih =>
      simp only [insertByKeyDesc]
      by_cases h : key y < key x
      · rw [if_pos h]
      · rw [if_neg h]
        exact (List.Perm.cons y ih).trans (List.Perm.swap x y ys)

theorem foldl_insertByKeyDesc_perm {α β : Type} [LinearOrder β]
    (key : α → β) :
    ∀ (l acc : List α),
      List.Perm (l.foldl (fun acc x => insertByKeyDesc key x acc) acc)
        (acc ++ l) := by
  intro l
  induction l with
  | nil => intro acc; simp
  | cons x xs ih =>
      intro acc
      simp only [List.foldl_cons]
      refine (ih (insertByKeyDesc key x acc)).trans ?_
      refine (List.Perm.append_right xs (insertByKeyDesc_perm key x acc)).trans
        ?_
      exact List.perm_middle.symm

theorem sortByKeyDesc_perm {α β : Type} [LinearOrder β] (key : α → β)
    (l : List α) : List.Perm (sortByKeyDesc key l) l := by
  simpa [sortByKeyDesc] using foldl_insertByKeyDesc_perm key l []

theorem insertByKeyDesc_sorted {α β : Type} [LinearOrder β] (key : α → β)
    (x : α) (l : List α)
    (h : List.Sorted (fun p q => key q ≤ key p) l) :
    List.Sorted (fun p q => key q ≤ key p) (insertByKeyDesc key x l) := by
  induction l with
  | nil => simp [insertByKeyDesc]
  | cons y ys ih =>
      obtain ⟨hy, hys⟩ := List.sorted_cons.mp h
      simp only [insertByKeyDesc]
      by_cases hlt : key y < key x
      · rw [if_pos hlt]
        refine List.sorted_cons.mpr ⟨?_, h⟩
        intro z hz
        rcases List.mem_cons.mp hz with hz | hz
        · exact hz ▸ le_of_lt hlt
        · exact le_trans (hy z hz) (le_of_lt hlt)
      · rw [if_neg hlt]
        refine List.sorted_cons.mpr ⟨?_, ih hys⟩
        intro z hz
        have hz2 := (insertByKeyDesc_perm key x ys).mem_iff.mp hz
        rcases List.mem_cons.mp hz2 with hz2 | hz2
        · exact hz2 ▸ not_lt.mp hlt
        · exact hy z hz2

theorem foldl_insertByKeyDesc_sorted {α β : Type} [LinearOrder β]
    (key : α → β) :
    ∀ (l acc : List α),
      List.Sorted (fun p q => key q ≤ key p) acc →
      List.Sorted (fun p q => key q ≤ key p)
        (l.foldl (fun acc x => insertByKeyDesc key x acc) acc) := by
  intro l
  induction l with
  | nil => intro acc hacc; simpa using hacc
  | cons x xs ih =>
      intro acc hacc
      simp only [List.foldl_cons]
      exact ih _ (insertByKeyDesc_sorted key x acc hacc)

theorem sortByKeyDesc_sorted {α β : Type} [LinearOrder β] (key : α → β)
    (l : List α) :
    List.Sorted (fun p q => key q ≤ key p) (sortByKeyDesc key l) :=
  foldl_insertByKeyDesc_sorted key l [] (by simp)

theorem mem_dedupFirst_go {α : Type} [DecidableEq α] (x : α) :
    ∀ (l : List α) (seen : List α), x ∈ dedupFirst.go seen l → x ∈ l := by
  intro l
  induction l with
  | nil =>
      intro seen h
      simp [dedupFirst.go] at h
  | cons y ys ih =>
      intro seen h
      simp only [dedupFirst.go] at h
      by_cases hy : y ∈ seen
      · rw [if_pos hy] at h
        exact List.mem_cons_of_mem y (ih seen h)
      · rw [if_neg hy] at h
        rcases List.mem_cons.mp h with h | h
        · exact h ▸ List.mem_cons_self y ys
        · exact List.mem_cons_of_mem y (ih (y :: seen) h)

/-- Claim C7 (amended): the leadsPorFuente detail lists at most 10
organizations, ordered descending by registration count; the listed counts
are the true per-organization counts of in-range registrations and every
listed organization does occur in range; the sorted list is a permutation of
the full group list (nothing invented or lost before the limit); and the KPI
value is the sum of the listed counts. No secondary sort key is applied, so
the order among equal counts is not determined by the query (see the
counterexample); the model linearizes ties in stream order. -/
theorem leads_por_fuente_top10 (db : DB) (gran : String) (a b : Fecha) :
    (leadsTopDB db a b).length ≤ 10 ∧
    List.Sorted (fun p q => q.2 ≤ p.2) (leadsTopDB db a b) ∧
    List.Perm (sortByKeyDesc Prod.snd (leadsGroups db a b))
      (leadsGroups db a b) ∧
    (∀ p ∈ leadsTopDB db a b,
        p.2 = ((fuentesInRange db a b).filter (fun g => g = p.1)).length ∧
        p.1 ∈ fuentesInRange db a b) ∧
    kpi_leads_por_fuente (storeOfDB db) gran a b =
      .ok { nombre := "leadsPorFuente",
            valor := (((leadsTopDB db a b).map Prod.snd).sum : ℚ),
            detalle := .leadsD ((leadsTopDB db a b).map Prod.snd).sum
              (leadsTopDB db a b) } := by
  refine ⟨List.length_take_le 10 _, ?_, sortByKeyDesc_perm _ _, ?_, rfl⟩
  · exact List.Pairwise.sublist (List.take_sublist 10 _)
      (sortByKeyDesc_sorted Prod.snd (leadsGroups db a b))
  · intro p hp
    have hmem : p ∈ sortByKeyDesc Prod.snd (leadsGroups db a b) :=
      List.Sublist.mem hp (List.take_sublist 10 _)
    have hgrp : p ∈ leadsGroups db a b :=
      (sortByKeyDesc_perm Prod.snd _).mem_iff.mp hmem
    obtain ⟨f, hf, rfl⟩ := List.mem_map.mp hgrp
    exact ⟨rfl, mem_dedupFirst_go f _ [] hf⟩

/-! ## app/cache/redis_client.py and app/api/tools.py : claim C3 -/

/-- Insert keeping an ascending key order; equal keys stay behind earlier
elements (stable, like Python sorted). -/
def insertByKeyAsc {α β : Type} [LinearOrder β] (key : α → β) (x : α) :
    List α → List α
  | [] => [x]
  | y :: ys =>
      if key x < key y then x :: y :: ys else y :: insertByKeyAsc key x ys

/-- Stable ascending sort by a key: Python sorted with a key, and SQL
ORDER BY key ASC linearized with ties in stream order. -/
def sortByKeyAsc {α β : Type} [LinearOrder β] (key : α → β)
    (l : List α) : List α :=
  l.foldl (fun acc x => insertByKeyAsc key x acc) []

/-- CACHE_TTL table of app/cache/redis_client.py (lines 127-136). -/
def CACHE_TTL : List (String × Nat) :=
  [("mapaSalaEvento", 60), ("getAforo", 60), ("getEventos", 300),
   ("getInscritos", 600), ("getEstadisticas", 300),
   ("confirmarAsistencia", 0), ("buscarRegistro", 0)]

/-- CACHE_TTL.get(tool_name, 0). -/
def cacheTTL (tool : String) : Nat :=
  ((CACHE_TTL.find? (fun kv => kv.1 = tool)).map Prod.snd).getD 0

/-- get_cache_key of app/cache/redis_client.py (lines 117-123): drop
None-valued parameters, sort by name, join k=v with ampersands under the
mcp:tool: prefix. -/
def get_cache_key (tool : String) (params : List (String × Option String)) :
    String :=
  let filtered := params.filterMap (fun kv => kv.2.map (fun v => (kv.1, v)))
  let sorted := sortByKeyAsc Prod.fst filtered
  "mcp:" ++ tool ++ ":" ++
    String.intercalate "&" (sorted.map (fun kv => kv.1 ++ "=" ++ kv.2))

/-- Cache entry: stored value, creation time, TTL seconds. -/
structure CacheEntry (α : Type) where
  value : α
  created : Int
  ttl : Nat
deriving DecidableEq, Repr

/-- Cache contents keyed by cache-key string. -/
abbrev CacheState (α : Type) := List (String × CacheEntry α)

/-- Write-through of one key. -/
def cacheStore {α : Type} (cache : CacheState α) (key : String)
    (e : CacheEntry α) : CacheState α :=
  match cache.find? (fun kv => kv.1 = key) with
  | some _ => cache.map (fun kv => if kv.1 = key then (key, e) else kv)
  | none => cache ++ [(key, e)]

/-- cache_get of app/cache/redis_client.py (lines 139-145) together with the
Redis expiry of setex: None when the tool's TTL is 0, the stored value when
an entry of the key is still fresh (age strictly below its TTL), None
otherwise. Backend unavailability (fail open, returning None) is not
modelled separately: it coincides with a miss. -/
def cache_get {α : Type} (tool : String)
    (params : List (String × Option String)) (cache : CacheState α)
    (now : Int) : Option α :=
  if cacheTTL tool = 0 then none
  else
    match cache.find? (fun kv => kv.1 = get_cache_key tool params) with
    | some kv => if now - kv.2.created < kv.2.ttl then some kv.2.value
        else none
    | none => none

/-- cache_set of app/cache/redis_client.py (lines 148-155): no-op returning
False when the tool's TTL is 0, otherwise store under the tool's TTL. -/
def cache_set {α : Type} (tool : String)
    (params : List (String × Option String)) (value : α)
    (cache : CacheState α) (now : Int) : Bool × CacheState α :=
  if cacheTTL tool = 0 then (false, cache)
  else (true, cacheStore cache (get_cache_key tool params)
    { value := value, created := now, ttl := cacheTTL tool })

/-- Modelled from the spec: getOrCompute of spec section 4.4, the cache-aside
sequence the handlers are claimed to run. No handler in
src/app/api/tools.py calls cache_get or cache_set (the wiring is absent from
the source), so the sequence is stated from the spec words, through the
repository's own cache accessors: serve a fresh hit without invoking
compute, otherwise compute and store with the tool's TTL. -/
def getOrCompute {α : Type} (tool : String)
    (params : List (String × Option String)) (now : Int)
    (cache : CacheState α) (compute : Unit → α) : α × CacheState α :=
  match cache_get tool params cache now with
  | some v => (v, cache)
  | none =>
      let v := compute ()
      (v, (cache_set tool params v cache now).2)

/-- GetEventosInput of app/schemas/tools_in.py (lines 9-22). -/
structure GetEventosInput where
  fechaInicio : Option Fecha
  fechaFin : Option Fecha
  sede : Option String
  sala : Option String
  query : Option String
deriving DecidableEq, Repr

/-- EventoInfo of app/schemas/tools_out.py as filled by the service. -/
structure EventoInfo where
  id : Nat
  titulo : String
  sede : Option String
  sala : String
  fechaInicio : Fecha
  fechaFin : Option Fecha
  cupoTotal : Nat
  estado : String
  expositor : String
deriving DecidableEq, Repr

/-- GetEventosOutput of app/schemas/tools_out.py. -/
structure GetEventosOutput where
  eventos : List EventoInfo
  total : Nat
deriving DecidableEq, Repr

/-- EventosQueries.get_eventos_filtered (app/db/queries.py lines 20-59):
conditions are appended under Python truthiness (the sede parameter is
accepted and generates no condition in the source); the query condition is
an or over title, description (NULL never matches) and speaker; ordering is
by fecha then hora ascending; offset applies before limit. -/
def get_eventos_filtered (db : DB) (fecha_inicio fecha_fin : Option Fecha)
    (sede sala query : Option String) (limit offset : Nat) :
    List ExpoEvento :=
  let _ := sede
  let conds := fun (ev : ExpoEvento) =>
    (match fecha_inicio with
     | some f => Fecha.le f ev.fecha
     | none => true) &&
    (match fecha_fin with
     | some f => Fecha.le ev.fecha f
     | none => true) &&
    (if truthyStr sala then likeContains (sala.getD "") ev.sala
     else true) &&
    (if truthyStr query then
       (likeContains (query.getD "") ev.titulo_charla ||
        (match ev.descripcion with
         | some d => likeContains (query.getD "") d
         | none => false) ||
        likeContains (query.getD "") ev.expositor)
     else true)
  (((sortByKeyAsc (fun ev => ev.fecha.key)
      (sortByKeyAsc (fun ev => ev.hora)
        (db.eventos.filter conds)))).drop offset).take limit

/-- EventosService.get_eventos (app/services/eventos.py lines 19-81): run
the query with limit 50 offset 0 and map rows to EventoInfo (cupoTotal is
slots_disponibles or 60 under Python truthiness, estado ACTIVO iff
disponible). -/
def get_eventos_service (db : DB) (inp : GetEventosInput) :
    GetEventosOutput :=
  let eventos := get_eventos_filtered db inp.fechaInicio inp.fechaFin
    inp.sede inp.sala inp.query 50 0
  let eventos_info : List EventoInfo := eventos.map (fun ev =>
    { id := ev.id, titulo := ev.titulo_charla, sede := none,
      sala := ev.sala, fechaInicio := ev.fecha, fechaFin := none,
      cupoTotal := match ev.slots_disponibles with
        | some n => if n = 0 then 60 else n
        | none => 60,
      estado := if ev.disponible then "ACTIVO" else "INACTIVO",
      expositor := ev.expositor })
  { eventos := eventos_info, total := eventos_info.length }

/-- Endpoint body of POST /getEventos (app/api/tools.py lines 32-81) after
authentication, permission and rate limiting: it invokes the service and
returns its result; no cache read or write appears anywhere in the body, so
the cache state passes through untouched. -/
def get_eventos_endpoint (cache : CacheState GetEventosOutput) (db : DB)
    (inp : GetEventosInput) : GetEventosOutput × CacheState GetEventosOutput :=
  (get_eventos_service db inp, cache)

/-- Database holding one event, used by the C3 evaluation. -/
def db3 : DB :=
  { eventos := [evAug], registros := [], registro_eventos := [],
    asistencias_por_sala := [] }

/-- The getEventos call with no filters. -/
def inp0 : GetEventosInput :=
  { fechaInicio := none, fechaFin := none, sede := none, sala := none,
    query := none }

/-- A cached output differing from what the handler computes on db3. -/
def cachedOut : GetEventosOutput := { eventos := [], total := 0 }

/-- Cache holding a fresh entry (created 0, TTL 300) for the getEventos
key. -/
def cache0 : CacheState GetEventosOutput :=
  [(get_cache_key "getEventos" [],
    { value := cachedOut, created := 0, ttl := 300 })]

/-- Claim C3 is violated by the code: the getEventos endpoint always invokes
the handler and never touches the cache (first conjunct, for every cache
state), although the tool has TTL 300 (second conjunct). At time 10 the
spec's cache-aside sequence over the same cache returns the fresh cached
value without computing (third conjunct), while the endpoint returns the
freshly computed output and leaves the cache unchanged (fourth conjunct),
and the two values differ (fifth conjunct). -/
theorem get_eventos_bypasses_cache :
    (∀ (cache : CacheState GetEventosOutput) (db : DB)
        (inp : GetEventosInput),
        get_eventos_endpoint cache db inp = (get_eventos_service db inp,
          cache)) ∧
    cacheTTL "getEventos" = 300 ∧
    getOrCompute "getEventos" [] 10 cache0
      (fun _ => get_eventos_service db3 inp0) = (cachedOut, cache0) ∧
    get_eventos_endpoint cache0 db3 inp0 =
      (get_eventos_service db3 inp0, cache0) ∧
    get_eventos_service db3 inp0 ≠ cachedOut := by
  refine ⟨fun cache db inp => rfl, rfl, ?_, rfl, by decide⟩
  rfl

end Expo
